import Mathlib

/-!
Verification of the ChainVerse analytics scripts
(`analytics/price_feed.py` and `analytics/visualize_chain.py`).

The Python scripts are shallowly embedded here. Numeric values that Python
holds in floats (`eth_amount`, prices, `value_eth`, ...) are modelled as
rationals, so arithmetic is exact; integer arithmetic (`int(...) % n`) is
modelled on `Int`, where the Lean `%` agrees with the Python `%` for a positive
divisor. Exceptions that Python raises are modelled with `Except`: a call
that raises returns `.error`, and a call that returns normally returns
`.ok`. Network I/O is modelled by passing the (already parsed) API response
as an explicit argument.
-/

set_option autoImplicit false

namespace ChainVerse

/-! ### `analytics/price_feed.py` -/

/-- Configured maximum number of history points (`MAX_HISTORY_POINTS = 50`,
price_feed.py line 33). The constant is declared in the CONFIG block of the
script;
whether the live tracker actually enforces it is settled below. -/
def MAX_HISTORY_POINTS : Nat := 50

/-- Simulated donation amount (`DONATION_ETH = 0.1`, price_feed.py line 34). -/
def DONATION_ETH : ℚ := 1 / 10

/-- The Python exceptions the embedded code can raise. `simulate_donation`
performs `eth_amount / num_beneficiaries` on line 73, which raises
`ZeroDivisionError` when `num_beneficiaries == 0`; no other exception is
reachable in the embedded fragments. -/
inductive PyExc where
  | zeroDivisionError
  deriving DecidableEq, Repr

/-- The Python builtin `int()` applied to a rational: truncation toward
zero. -/
def pyInt (q : ℚ) : ℤ := if q < 0 then ⌈q⌉ else ⌊q⌋

/-- The dictionary returned by `simulate_donation` (price_feed.py 78-85). -/
structure DonationSplit where
  donation_eth : ℚ
  donation_usd : ℚ
  num_beneficiaries : Nat
  share_eth : ℚ
  share_usd : ℚ
  dust_wei : ℤ
  deriving DecidableEq, Repr

/-- `simulate_donation` (price_feed.py 66-85). The body performs
`eth_amount / num_beneficiaries` and `int(eth_amount * 1e18) %
num_beneficiaries` with no input validation, so `num_beneficiaries = 0`
raises `ZeroDivisionError`; every other input returns the computed
dictionary. -/
def simulate_donation (eth_amount eth_price : ℚ) (num_beneficiaries : Nat) :
    Except PyExc DonationSplit :=
  if num_beneficiaries = 0 then
    .error .zeroDivisionError
  else
    .ok
      { donation_eth := eth_amount
        donation_usd := eth_amount * eth_price
        num_beneficiaries := num_beneficiaries
        share_eth := eth_amount / (num_beneficiaries : ℚ)
        share_usd := (eth_amount * eth_price) / (num_beneficiaries : ℚ)
        dust_wei := pyInt (eth_amount * 10 ^ 18) % (num_beneficiaries : ℤ) }

/-- One fetched price record (the dictionary built by `get_crypto_prices`,
price_feed.py 52-58). The timestamp is modelled as a natural number. -/
structure PricePoint where
  eth_usd : ℚ
  eth_24h_change : ℚ
  btc_usd : ℚ
  btc_24h_change : ℚ
  timestamp : Nat
  deriving DecidableEq, Repr

/-- One round of the polling loop of `run_live_tracker` restricted to its effect
on `history` (price_feed.py 204-217): a successful fetch is appended to the
end of the history, a failed fetch (`get_crypto_prices` returned `None`)
leaves it unchanged. No trimming of any kind is performed. -/
def historyStep (history : List PricePoint) (fetch : Option PricePoint) :
    List PricePoint :=
  match fetch with
  | some p => history ++ [p]
  | none => history

/-- The `history` list built by `run_live_tracker` (price_feed.py 201-217)
after processing the given sequence of fetch results, starting from the
empty list. -/
def run_live_tracker_history (fetches : List (Option PricePoint)) :
    List PricePoint :=
  fetches.foldl historyStep []

theorem historyStep_foldl (fetches : List (Option PricePoint))
    (acc : List PricePoint) :
    fetches.foldl historyStep acc = acc ++ fetches.filterMap id := by
  induction fetches generalizing acc with
  | nil => simp
  | cons f rest ih =>
    cases f with
    | some p => simp [historyStep, ih]
    | none => simp [historyStep, ih]

/-! ### `analytics/visualize_chain.py` -/

/-- A raw normal-transaction row as delivered by the explorer API
(visualize_chain.py 73-76 builds the DataFrame from these). Fields that may
be missing or non-numeric in the JSON are `Option`s; `pd.to_numeric(...,
errors="coerce").fillna(0)` turns a missing/bad value into `0` downstream. -/
structure RawTx where
  hash : String
  timeStamp : Option ℤ
  fromAddr : String
  toAddr : Option String
  value : Option ℤ
  gasUsed : Option ℤ
  blockNumber : Option ℤ
  isError : Option ℤ
  deriving DecidableEq, Repr

/-- A normal-transaction row after the derived columns added in
`fetch_transactions` (visualize_chain.py 77-89). -/
structure Tx where
  hash : String
  timestamp : ℤ
  fromAddr : String
  toAddr : Option String
  value_wei : ℚ
  value_eth : ℚ
  gas_used : ℤ
  block_num : ℤ
  is_incoming : Bool
  is_error : Bool
  deriving DecidableEq, Repr

/-- The derived-column computation of `fetch_transactions`
(visualize_chain.py 77-89) applied to one raw row:
`value_wei = to_numeric(value).fillna(0)`, `value_eth = value_wei / 1e18`,
`is_incoming = to.fillna("").lower() == address.lower()`,
`is_error = to_numeric(isError).fillna(0) == 1`. -/
def augmentTx (address : String) (r : RawTx) : Tx :=
  { hash := r.hash
    timestamp := r.timeStamp.getD 0
    fromAddr := r.fromAddr
    toAddr := r.toAddr
    value_wei := ((r.value.getD 0 : ℤ) : ℚ)
    value_eth := ((r.value.getD 0 : ℤ) : ℚ) / 10 ^ 18
    gas_used := r.gasUsed.getD 0
    block_num := r.blockNumber.getD 0
    is_incoming := (r.toAddr.getD "").toLower == address.toLower
    is_error := r.isError.getD 0 == 1 }

/-- A parsed explorer API response: the optional `status` flag, the optional
`message`, and the `result` rows (empty when the payload is not a row
list). -/
structure ExplorerResponse (α : Type) where
  status : Option String
  message : Option String
  result : List α
  deriving DecidableEq, Repr

/-- `fetch_transactions` (visualize_chain.py 51-91) restricted to its data
flow: if `data.get("status") != "1"` the function returns an empty
DataFrame (lines 68-71), otherwise each result row gets the derived
columns. -/
def fetch_transactions (address : String) (resp : ExplorerResponse RawTx) :
    List Tx :=
  if resp.status ≠ some "1" then []
  else resp.result.map (augmentTx address)

/-- A raw internal-transaction row (visualize_chain.py 112). -/
structure RawInternalTx where
  hash : String
  timeStamp : Option ℤ
  fromAddr : Option String
  toAddr : Option String
  value : Option ℤ
  gasUsed : Option ℤ
  blockNumber : Option ℤ
  isError : Option ℤ
  deriving DecidableEq, Repr

/-- An internal-transaction row after the derived columns added in
`fetch_internal_transactions` (visualize_chain.py 116-126); note that this
fetcher lower-cases the `from` and `to` columns in place. -/
structure InternalTx where
  hash : String
  timestamp : ℤ
  fromAddr : String
  toAddr : String
  value_wei : ℚ
  value_eth : ℚ
  is_error : Bool
  deriving DecidableEq, Repr

/-- The derived-column computation of `fetch_internal_transactions`
(visualize_chain.py 116-126) applied to one raw row. -/
def augmentInternalTx (r : RawInternalTx) : InternalTx :=
  { hash := r.hash
    timestamp := r.timeStamp.getD 0
    fromAddr := (r.fromAddr.getD "").toLower
    toAddr := (r.toAddr.getD "").toLower
    value_wei := ((r.value.getD 0 : ℤ) : ℚ)
    value_eth := ((r.value.getD 0 : ℤ) : ℚ) / 10 ^ 18
    is_error := r.isError.getD 0 == 1 }

/-- `fetch_internal_transactions` (visualize_chain.py 94-126) restricted to
its data flow: a response whose `status` is not `"1"` yields an empty
DataFrame (lines 109-110), otherwise the rows get the derived columns. -/
def fetch_internal_transactions (resp : ExplorerResponse RawInternalTx) :
    List InternalTx :=
  if resp.status ≠ some "1" then []
  else resp.result.map augmentInternalTx

/-- The internal-withdrawal filter used identically in `print_summary`
(visualize_chain.py 154-158), `print_chain_contents` (231-235),
`create_charts` (255-259) and `export_csv` (503-507): the per-row
(already lower-cased) `from` equals `CONTRACT_ADDRESS.lower()`, its value
is positive, and it is not an error. -/
def isInternalWithdrawal (contract : String) (t : InternalTx) : Bool :=
  (t.fromAddr == contract.toLower) && decide (0 < t.value_eth) && !t.is_error

/-- The four transaction classes of the terminal report
(`print_chain_contents`, visualize_chain.py 206-213); the script prints
them as `"FAILED"`, `"DONATION"`, `"WITHDRAW"` and `"CALL(0ETH)"`. -/
inductive TxClass where
  | FAILED
  | DONATION
  | WITHDRAWAL
  | CALL_ZERO_VALUE
  deriving DecidableEq, Repr

/-- The per-row classification of `print_chain_contents`
(visualize_chain.py 206-213): an `if/elif/elif/else` chain, first match
wins. -/
def classifyTx (t : Tx) : TxClass :=
  if t.is_error then .FAILED
  else if t.is_incoming && decide (0 < t.value_eth) then .DONATION
  else if !t.is_incoming && decide (0 < t.value_eth) then .WITHDRAWAL
  else .CALL_ZERO_VALUE

/-- The `incoming` filter of `print_summary` (visualize_chain.py 150):
`is_incoming & (value_eth > 0) & ~is_error` — the DONATION rows. -/
def donationRows (txs : List Tx) : List Tx :=
  txs.filter (fun t => t.is_incoming && decide (0 < t.value_eth) && !t.is_error)

/-- The `zero_value_calls` filter of `print_summary`
(visualize_chain.py 159): `(value_eth == 0) & ~is_error`. -/
def zeroValueCallRows (txs : List Tx) : List Tx :=
  txs.filter (fun t => decide (t.value_eth = 0) && !t.is_error)

/-- The figures printed by `print_summary` (visualize_chain.py 165-182). -/
structure AuditSummary where
  totalTx : Nat
  successful : Nat
  failed : Nat
  zeroValueCalls : Nat
  donationsReceived : Nat
  uniqueDonors : Nat
  totalDonatedEth : ℚ
  totalDonatedUsd : ℚ
  withdrawals : Nat
  deriving DecidableEq, Repr

/-- `print_summary` (visualize_chain.py 144-182) restricted to the figures
it computes. An empty DataFrame makes the function print
`"No data to summarize."` and return before computing anything (lines
146-148), modelled as `none`; otherwise the printed summary is returned.
`unique_donors` is `incoming["from"].nunique()` guarded by
`if not incoming.empty else 0` (line 163); `outgoing` is an empty frame
when `internal_df` is empty (lines 151-152). -/
def print_summary (contract : String) (txs : List Tx)
    (internal : List InternalTx) (eth_price : ℚ) : Option AuditSummary :=
  if txs = [] then none
  else
    let incoming := donationRows txs
    let outgoing :=
      if internal = [] then []
      else internal.filter (isInternalWithdrawal contract)
    let totalDonatedEth := (incoming.map Tx.value_eth).sum
    some
      { totalTx := txs.length
        successful := (txs.filter (fun t => !t.is_error)).length
        failed := (txs.filter (fun t => t.is_error)).length
        zeroValueCalls := (zeroValueCallRows txs).length
        donationsReceived := incoming.length
        uniqueDonors :=
          if incoming = [] then 0
          else (incoming.map Tx.fromAddr).dedup.length
        totalDonatedEth := totalDonatedEth
        totalDonatedUsd := totalDonatedEth * eth_price
        withdrawals := outgoing.length }

/-- The `direction` column of `export_csv` (visualize_chain.py 482-484):
`INCOMING` when `is_incoming`, `OUTGOING` otherwise. -/
def export_direction (t : Tx) : String :=
  if t.is_incoming then "INCOMING" else "OUTGOING"

/-- The `tx_type` column of `export_csv` (visualize_chain.py 485-492),
built by successive overwrites: default `"CALL_0_ETH"`; rows with
`direction == "INCOMING"` and positive value become `"DONATION"`; rows
with `direction == "OUTGOING"` and positive value become `"WITHDRAWAL"`;
finally error rows become `"FAILED"`. -/
def export_tx_type (t : Tx) : String :=
  let t0 := "CALL_0_ETH"
  let t1 :=
    if export_direction t == "INCOMING" && decide (0 < t.value_eth) then
      "DONATION"
    else t0
  let t2 :=
    if export_direction t == "OUTGOING" && decide (0 < t.value_eth) then
      "WITHDRAWAL"
    else t1
  if t.is_error then "FAILED" else t2

/-- The CSV label corresponding to each terminal-report class (the CSV
writes `"WITHDRAWAL"` and `"CALL_0_ETH"` where the terminal report prints
`"WITHDRAW"` and `"CALL(0ETH)"`). -/
def csvLabel : TxClass → String
  | .FAILED => "FAILED"
  | .DONATION => "DONATION"
  | .WITHDRAWAL => "WITHDRAWAL"
  | .CALL_ZERO_VALUE => "CALL_0_ETH"

/-! ### Claims -/

/-- C1, counterexample: the claim fails on the code. With
`beneficiaryCount = 0` the simulator raises a bare `ZeroDivisionError`
(division by zero IS attempted on line 73; no `InvalidBeneficiaryCount`
error exists anywhere in the script), and with `donationEth = 0` it does
not fail at all: it returns a normal result dictionary instead of an
`InvalidDonationAmount` error. -/
theorem C1_counterexample :
    simulate_donation (1 / 10) 2000 0 = .error .zeroDivisionError ∧
    simulate_donation 0 2000 5 =
      .ok { donation_eth := 0, donation_usd := 0, num_beneficiaries := 5,
            share_eth := 0, share_usd := 0, dust_wei := 0 } := by
  constructor
  · simp [simulate_donation]
  · simp only [simulate_donation, pyInt]
    norm_num

/-- C1, amended: for every ETH price, calling the donation simulator with
`beneficiaryCount = 0` raises an unhandled `ZeroDivisionError` (division by
zero is attempted; there is no `InvalidBeneficiaryCount` validation), and
calling it with any `donationEth <= 0` and `beneficiaryCount >= 1` raises
no error at all and returns a normal result (there is no
`InvalidDonationAmount` validation). -/
theorem C1_amended :
    (∀ d price : ℚ, simulate_donation d price 0 = .error .zeroDivisionError) ∧
    (∀ (d price : ℚ) (n : Nat), d ≤ 0 → n ≠ 0 →
      (simulate_donation d price n).isOk = true) := by
  constructor
  · intro d price
    simp [simulate_donation]
  · intro d price n _ hn
    simp [simulate_donation, hn, Except.isOk, Except.toBool]

/-- C1, witness for the amended claim at concrete inputs. -/
theorem C1_witness :
    simulate_donation 3 2500 0 = .error .zeroDivisionError ∧
    (simulate_donation (-2) 2500 4).isOk = true :=
  ⟨C1_amended.1 3 2500, C1_amended.2 (-2) 2500 4 (by norm_num) (by norm_num)⟩

/-- C2, counterexample: the claim fails on the code. Feeding
`MAX_HISTORY_POINTS + 1 = 51` successful fetches to the live-tracker loop
leaves 51 points in the history, not 50: nothing is ever evicted, the loop
only appends (price_feed.py line 209) and `MAX_HISTORY_POINTS` is never
consulted. -/
theorem C2_counterexample :
    (run_live_tracker_history
        (List.replicate (MAX_HISTORY_POINTS + 1)
          (some { eth_usd := 2000, eth_24h_change := 0, btc_usd := 30000,
                  btc_24h_change := 0, timestamp := 0 }))).length ≠
      MAX_HISTORY_POINTS := by
  rw [run_live_tracker_history, historyStep_foldl]
  simp [MAX_HISTORY_POINTS]

/-- C2, amended: the price history is NOT bounded by `MAX_HISTORY_POINTS`.
The live tracker appends every successful fetch and never trims, so the
history is exactly the successful fetches in insertion order: inserting
`M + 1` points leaves all `M + 1` points, none evicted, and the length can
exceed the configured maximum (the `MAX_HISTORY_POINTS` constant is
declared but unused). Order of points is preserved. -/
theorem C2_amended (fetches : List (Option PricePoint)) :
    run_live_tracker_history fetches = fetches.filterMap id := by
  rw [run_live_tracker_history, historyStep_foldl]
  simp

/-- C3: the terminal-report classification is total (it always returns one
of the four classes) and assigns exactly one class by first-match
precedence: `FAILED` exactly on error rows regardless of value or
direction, else `DONATION` exactly on incoming positive-value rows, else
`WITHDRAWAL` exactly on outgoing positive-value rows, else
`CALL_ZERO_VALUE`; the four characterizations are mutually exclusive. -/
theorem C3_classification (t : Tx) :
    (classifyTx t = .FAILED ↔ t.is_error = true) ∧
    (classifyTx t = .DONATION ↔
      t.is_error = false ∧ t.is_incoming = true ∧ 0 < t.value_eth) ∧
    (classifyTx t = .WITHDRAWAL ↔
      t.is_error = false ∧ t.is_incoming = false ∧ 0 < t.value_eth) ∧
    (classifyTx t = .CALL_ZERO_VALUE ↔
      t.is_error = false ∧ ¬ 0 < t.value_eth) := by
  rcases t with ⟨hash, ts, f, tgt, vw, ve, g, b, inc, err⟩
  cases inc <;> cases err <;> by_cases h : 0 < ve <;>
    simp [classifyTx, h]

/-- C3, witness: an error row with incoming direction and positive value is
classified `FAILED` (`isError` wins regardless of value and direction). -/
theorem C3_witness :
    classifyTx
      { hash := "0xaa", timestamp := 0, fromAddr := "0xd1", toAddr := some "0xc0",
        value_wei := 5, value_eth := 5, gas_used := 21000, block_num := 1,
        is_incoming := true, is_error := true } = .FAILED :=
  (C3_classification _).1.mpr rfl

/-- C4, counterexample: the claim fails on the code. For
`donationEth = 0.1`, `ethPrice = 2000`, `beneficiaryCount = 5` the
simulator returns `donationUsd = 200` (not `20.00`) and `shareUsd = 40`
(not `4.00`): `0.1 * 2000 = 200` and `200 / 5 = 40`. -/
theorem C4_counterexample :
    (simulate_donation (1 / 10) 2000 5).map DonationSplit.donation_usd =
      .ok 200 ∧
    (simulate_donation (1 / 10) 2000 5).map DonationSplit.donation_usd ≠
      .ok 20 ∧
    (simulate_donation (1 / 10) 2000 5).map DonationSplit.share_usd ≠
      .ok 4 := by
  refine ⟨?_, ?_, ?_⟩ <;>
    · simp only [simulate_donation, pyInt, Except.map]
      norm_num

/-- C4, amended: for `donationEth = 0.1`, `ethPrice = 2000`,
`beneficiaryCount = 5` the donation simulator returns
`donationUsd = 200.00`, `shareUsd = 40.00` and `shareEth = 0.02`
(`= 1/50`), with `dustWei = 0`. -/
theorem C4_amended :
    simulate_donation (1 / 10) 2000 5 =
      .ok { donation_eth := 1 / 10, donation_usd := 200,
            num_beneficiaries := 5, share_eth := 1 / 50, share_usd := 40,
            dust_wei := 0 } := by
  simp only [simulate_donation, pyInt]
  norm_num

/-- C5: for every `donationEth > 0` and integer `beneficiaryCount >= 1`,
the dust returned by the simulator equals
`floor(donationEth * 1e18) mod beneficiaryCount` computed with integer
modulo arithmetic on `Int` (the Python `int(...) % n`, which agrees with
the Lean `%` for a positive divisor), and it lies in
`[0, beneficiaryCount)`. -/
theorem C5_dust (d price : ℚ) (n : Nat) (hd : 0 < d) (hn : 1 ≤ n) :
    (simulate_donation d price n).map DonationSplit.dust_wei =
      .ok (⌊d * 10 ^ 18⌋ % (n : ℤ)) ∧
    0 ≤ ⌊d * 10 ^ 18⌋ % (n : ℤ) ∧
    ⌊d * 10 ^ 18⌋ % (n : ℤ) < (n : ℤ) := by
  have hn0 : n ≠ 0 := by omega
  have hnz : (n : ℤ) ≠ 0 := by exact_mod_cast hn0
  have hnpos : (0 : ℤ) < (n : ℤ) := by exact_mod_cast Nat.lt_of_lt_of_le Nat.zero_lt_one hn
  have hpos : (0 : ℚ) < d * 10 ^ 18 :=
    mul_pos hd (by norm_num)
  refine ⟨?_, Int.emod_nonneg _ hnz, Int.emod_lt_of_pos _ hnpos⟩
  simp [simulate_donation, hn0, Except.map, pyInt, not_lt.mpr hpos.le]

/-- C5, witness at `donationEth = 1/3`, `ethPrice = 2000`,
`beneficiaryCount = 7`. -/
theorem C5_witness :
    (simulate_donation (1 / 3) 2000 7).map DonationSplit.dust_wei =
      .ok (⌊(1 / 3 : ℚ) * 10 ^ 18⌋ % ((7 : Nat) : ℤ)) ∧
    0 ≤ ⌊(1 / 3 : ℚ) * 10 ^ 18⌋ % ((7 : Nat) : ℤ) ∧
    ⌊(1 / 3 : ℚ) * 10 ^ 18⌋ % ((7 : Nat) : ℤ) < ((7 : Nat) : ℤ) :=
  C5_dust (1 / 3) 2000 7 (by norm_num) (by norm_num)

/-- C6, counterexample: the claim fails on the code. On an empty
transaction set the summary step does NOT return a zero-valued summary: it
prints `"No data to summarize."` and returns before computing anything
(visualize_chain.py 146-148), so no summary is produced at all. -/
theorem C6_counterexample : print_summary "0xc0" [] [] 2000 = none := by
  simp [print_summary]

/-- C6, amended: on an empty transaction set the summary step returns early
with a no-data message instead of a zero-valued summary (still raising no
error); for every NONEMPTY transaction set whose DONATION-classified subset
is empty, the computed summary has donation count 0, unique-donor count 0
and zero donated totals, and no error is raised. -/
theorem C6_amended (contract : String) (txs : List Tx)
    (internal : List InternalTx) (price : ℚ)
    (hne : txs ≠ []) (hdon : donationRows txs = []) :
    (print_summary contract txs internal price).map
        (fun s => (s.donationsReceived, s.uniqueDonors,
                   s.totalDonatedEth, s.totalDonatedUsd)) =
      some (0, 0, 0, 0) := by
  simp [print_summary, hne, hdon]

/-- C6, witness: a single zero-value outgoing call yields a summary with
zero donation figures. -/
theorem C6_witness :
    (print_summary "0xc0"
        [{ hash := "0xbb", timestamp := 0, fromAddr := "0xd1",
           toAddr := some "0xc0", value_wei := 0, value_eth := 0,
           gas_used := 21000, block_num := 1, is_incoming := false,
           is_error := false }] [] 2000).map
        (fun s => (s.donationsReceived, s.uniqueDonors,
                   s.totalDonatedEth, s.totalDonatedUsd)) =
      some (0, 0, 0, 0) :=
  C6_amended "0xc0" _ [] 2000 (by simp) rfl

/-- C7: an internal-transaction record is counted as a WITHDRAWAL by the
summary filter exactly when its from-address equals the contract address
under case-insensitive comparison (both sides lower-cased), its value is
strictly positive, and it is not an error; a record failing any of the
three conditions is not counted. -/
theorem C7_internal_withdrawal (contract : String) (r : RawInternalTx) :
    isInternalWithdrawal contract (augmentInternalTx r) = true ↔
      ((r.fromAddr.getD "").toLower = contract.toLower ∧
        0 < r.value.getD 0 ∧ ¬ r.isError.getD 0 = 1) := by
  have key : (0 : ℚ) < ((r.value.getD 0 : ℤ) : ℚ) / 10 ^ 18 ↔
      0 < r.value.getD 0 := by
    rw [div_pos_iff_of_pos_right (by norm_num : (0:ℚ) < 10 ^ 18)]
    exact_mod_cast Iff.rfl
  simp [isInternalWithdrawal, augmentInternalTx, key, and_assoc]

/-- C7, witness: an internal record from the contract address with value
1 ETH and no error is counted as a withdrawal. -/
theorem C7_witness :
    isInternalWithdrawal "0xc0de"
      (augmentInternalTx
        { hash := "0xcc", timeStamp := some 5, fromAddr := some "0xc0de",
          toAddr := some "0xd2", value := some 1000000000000000000,
          gasUsed := some 0, blockNumber := some 7, isError := some 0 }) =
      true :=
  (C7_internal_withdrawal "0xc0de" _).mpr ⟨rfl, by norm_num, by norm_num⟩

/-- C8: for every raw transaction whose to-field is present, the derived
`is_incoming` flag is true exactly when the to-field equals the contract
address under case-insensitive (lower-cased) comparison; moreover two
contract addresses that agree after lower-casing produce the same flag on
every record, so addresses differing only in letter case are treated as
equal. -/
theorem C8_is_incoming (address : String) (r : RawTx) (s : String)
    (hto : r.toAddr = some s) :
    ((augmentTx address r).is_incoming = true ↔
      s.toLower = address.toLower) ∧
    (∀ addr2 : String, addr2.toLower = address.toLower →
      (augmentTx addr2 r).is_incoming = (augmentTx address r).is_incoming) := by
  constructor
  · simp [augmentTx, hto]
  · intro addr2 h2
    simp [augmentTx, hto, h2]

/-- C8, witness: a record whose to-field is literally the contract address
is flagged incoming. -/
theorem C8_witness :
    (augmentTx "0xAbC"
      { hash := "0xdd", timeStamp := some 0, fromAddr := "0xd1",
        toAddr := some "0xAbC", value := some 0, gasUsed := some 0,
        blockNumber := some 0, isError := some 0 }).is_incoming = true :=
  (C8_is_incoming "0xAbC" _ "0xAbC" rfl).1.mpr rfl

/-- C9: every explorer response whose status flag is not `"1"` (a missing
status field, a `"0"` status, an error message payload, ...) makes both
transaction fetchers return the empty transaction set instead of raising a
fatal error. -/
theorem C9_bad_status (address : String) (resp : ExplorerResponse RawTx)
    (iresp : ExplorerResponse RawInternalTx)
    (h1 : resp.status ≠ some "1") (h2 : iresp.status ≠ some "1") :
    fetch_transactions address resp = [] ∧
    fetch_internal_transactions iresp = [] := by
  constructor
  · simp [fetch_transactions, h1]
  · simp [fetch_internal_transactions, h2]

/-- C9, witness: a status-`"0"` normal response and a status-less internal
response both yield the empty set. -/
theorem C9_witness :
    fetch_transactions "0xc0"
        { status := some "0", message := some "NOTOK", result := [] } = [] ∧
    fetch_internal_transactions
        { status := none, message := none, result := [] } = [] :=
  C9_bad_status "0xc0" _ _ (by simp) (by simp)

/-- C10: the sequential-overwrite `tx_type` labelling of the CSV exporter
(default `CALL_0_ETH`, then `DONATION`, then `WITHDRAWAL`, then `FAILED`)
assigns to every top-level transaction row the same class as the
first-match classifier of the terminal report, under the label
correspondence `WITHDRAW ~ WITHDRAWAL` and `CALL(0ETH) ~ CALL_0_ETH`. -/
theorem C10_csv_matches_classifier (t : Tx) :
    export_tx_type t = csvLabel (classifyTx t) := by
  rcases t with ⟨hash, ts, f, tgt, vw, ve, g, b, inc, err⟩
  cases inc <;> cases err <;> by_cases h : 0 < ve <;>
    simp [export_tx_type, export_direction, classifyTx, csvLabel, h]

end ChainVerse
